import Mathlib

/-!
Shallow embedding of the OAuth 2.0 Authorization Code + PKCE gateway
(Rust sources under `src/`): the flow-state data model (`src/primitives.rs`),
the two request handlers `oauth_authorize` and `oauth_callback`
(`src/server/handlers.rs`), the error-response constructors
(`src/server/errors.rs`), the per-provider user-info adapters
(`src/providers/*.rs`), the startup provider construction (`src/main.rs`),
and the session-store configuration (`src/server/server.rs`).

External collaborators (the `oauth2` crate's authorize-URL builder and
code-exchange, the `reqwest` HTTP client's redirect policy, the Moka
session cache) are modelled parametrically; each such definition carries a
doc comment saying what library behaviour it stands for.  Randomness
(PKCE verifier, CSRF token) is modelled by passing the drawn values as
explicit arguments.
-/

namespace OAuthGateway

/-- `OAuthSessionState` from `src/primitives.rs`: the per-attempt flow
state persisted in the session (provider name, PKCE verifier, CSRF token). -/
structure OAuthSessionState where
  provider : String
  pkce_verifier : String
  csrf_token : String
deriving DecidableEq, Repr

/-- `UserInfo` from `src/primitives.rs`: the normalized identity an adapter
returns (`id`, `provider`). -/
structure UserInfo where
  id : String
  provider : String
deriving DecidableEq, Repr

/-! ### JSON values (`serde_json::Value`) -/

/-- `serde_json::Value`, restricted to integer numbers (the provider ids the
adapters handle are JSON integers or strings; floats never occur in the
claims' inputs). -/
inductive Json where
  | null
  | bool (b : Bool)
  | num (n : Int)
  | str (s : String)
  | arr (elems : List Json)
  | obj (fields : List (String × Json))

namespace Json

/-- `serde_json::Value::get(key)`: `Some` field value on an object that has
the key, `None` otherwise (also on non-objects). -/
def get (j : Json) (key : String) : Option Json :=
  match j with
  | .obj fields => (fields.find? (fun f => f.1 = key)).map (·.2)
  | _ => none

/-- `serde_json::Value`'s `Index<&str>` (`value["key"]`): the field value
when present, `Value::Null` when the key is absent or the value is not an
object. -/
def index (j : Json) (key : String) : Json :=
  (j.get key).getD .null

/-- `serde_json::Value::as_u64`: `Some` for a non-negative integer number,
`None` otherwise. -/
def as_u64 (j : Json) : Option Nat :=
  match j with
  | .num n => if 0 ≤ n then some n.toNat else none
  | _ => none

/-- `serde_json::Value::as_str`: the raw string for a JSON string, `None`
otherwise. -/
def as_str (j : Json) : Option String :=
  match j with
  | .str s => some s
  | _ => none

/-- Escaping of one character in a JSON string literal, as `serde_json`
renders it (quote, backslash, and the common control characters; other
characters pass through unchanged). -/
def escapeChar (c : Char) : String :=
  if c = '"' then "\\\""
  else if c = '\\' then "\\\\"
  else if c = '\n' then "\\n"
  else if c = '\r' then "\\r"
  else if c = '\t' then "\\t"
  else String.singleton c

/-- Rendering of a JSON string literal body. -/
def escapeString (s : String) : String :=
  String.join (s.toList.map escapeChar)

/-- `serde_json::Value`'s `Display`/`to_string()`: the compact JSON text of
the value.  In particular a JSON string renders WITH its surrounding
quotation marks. -/
def render : Json → String
  | .null => "null"
  | .bool b => if b then "true" else "false"
  | .num n => toString n
  | .str s => "\"" ++ escapeString s ++ "\""
  | .arr elems =>
      "[" ++ String.intercalate "," (elems.attach.map (fun x => render x.1)) ++ "]"
  | .obj fields =>
      "\x7b" ++
        String.intercalate ","
          (fields.attach.map
            (fun x => "\"" ++ escapeString x.1.1 ++ "\":" ++ render x.1.2))
        ++ "\x7d"
termination_by j => sizeOf j
decreasing_by
  all_goals
    have h := List.sizeOf_lt_of_mem x.2
  · simp only [Json.arr.sizeOf_spec]
    omega
  · obtain ⟨⟨a, b⟩, hm⟩ := x
    simp only [Prod.mk.sizeOf_spec] at h
    simp only [Json.obj.sizeOf_spec]
    omega

end Json

/-! ### Upstream HTTP responses and adapter errors -/

/-- A response from a provider's user-info endpoint: HTTP status and the
parsed JSON body (`none` when the body is not valid JSON, in which case
`response.json()` fails). -/
structure HttpResponse where
  status : Nat
  body : Option Json

/-- `reqwest::StatusCode::is_success()`: status in 200..=299. -/
def isSuccessStatus (status : Nat) : Bool :=
  200 ≤ status && status ≤ 299

/-- The failure modes of an adapter's `get_user_info` (in the source they
are all `eyre` errors; the spec's taxonomy names them): the request could
not be sent, the provider returned a non-2xx status, the body was not JSON,
or the expected identity field was absent/of the wrong type. -/
inductive UpstreamError where
  | requestError
  | statusError (status : Nat)
  | decodeError
  | schemaError (msg : String)
deriving DecidableEq, Repr

/-- `GithubProvider::get_user_info` (`src/providers/github.rs` lines
91-119): authenticated GET, non-2xx fails, then
`user_data["id"].as_u64()` stringified; absence of a valid numeric id
fails with the schema error.  The argument is the provider's response
(`none` = transport failure). -/
def github_get_user_info (resp : Option HttpResponse) : Except UpstreamError UserInfo :=
  match resp with
  | none => .error .requestError
  | some r =>
      if isSuccessStatus r.status then
        match r.body with
        | none => .error .decodeError
        | some user_data =>
            match (user_data.index "id").as_u64 with
            | some n => .ok { id := toString n, provider := "github" }
            | none => .error (.schemaError "No valid user ID in GitHub response")
      else .error (.statusError r.status)

/-- `SpotifyProvider::get_user_info` (`src/providers/spotify.rs` lines
91-119): authenticated GET, non-2xx fails, then
`user_data.get("id")` followed by `.to_string()` — i.e. the JSON rendering
of the field value, quotation marks included when it is a string. -/
def spotify_get_user_info (resp : Option HttpResponse) : Except UpstreamError UserInfo :=
  match resp with
  | none => .error .requestError
  | some r =>
      if isSuccessStatus r.status then
        match r.body with
        | none => .error .decodeError
        | some user_data =>
            match user_data.get "id" with
            | some v => .ok { id := v.render, provider := "spotify" }
            | none => .error (.schemaError "No id field in Spotify user info response")
      else .error (.statusError r.status)

/-- `TwitterProvider::get_user_info` (`src/providers/twitter.rs` lines
91-119): authenticated GET, non-2xx fails, then
`user_data["data"]["username"].as_str()`. -/
def twitter_get_user_info (resp : Option HttpResponse) : Except UpstreamError UserInfo :=
  match resp with
  | none => .error .requestError
  | some r =>
      if isSuccessStatus r.status then
        match r.body with
        | none => .error .decodeError
        | some user_data =>
            match ((user_data.index "data").index "username").as_str with
            | some username => .ok { id := username, provider := "twitter" }
            | none => .error (.schemaError "No username field in Twitter user info response")
      else .error (.statusError r.status)

/-! ### The HTTP client used for the token exchange (`reqwest`) -/

/-- `reqwest::redirect::Policy`, restricted to the two shapes relevant
here: `none` (never follow) and `follow` (follow a redirect to its
target, the crate's default behaviour). -/
inductive RedirectPolicy where
  | none
  | follow
deriving DecidableEq, Repr

/-- The configuration of a `reqwest::Client` that matters to the claims:
its redirect policy. -/
structure HttpClient where
  redirectPolicy : RedirectPolicy
deriving DecidableEq, Repr

/-- The client built in `oauth_callback` (`src/server/handlers.rs` lines
214-217): `reqwest::ClientBuilder::new().redirect(Policy::none()).build()`. -/
def callbackHttpClient : HttpClient :=
  { redirectPolicy := RedirectPolicy.none }

/-- What a token endpoint answers to one exchange request: a success
carrying the access token, an HTTP redirect to some location, or any
other failure (non-success token response or transport error). -/
inductive TokenEndpointResponse where
  | success (access_token : String)
  | redirect (location : String)
  | failure
deriving DecidableEq, Repr

/-- A provider entry of `AppState.oauth_providers`
(`src/server/server.rs`), as the handlers observe it: the fixed scope
list, the authorize endpoint, the token endpoint's behaviour on an
exchange request `(code, pkce_verifier)`, what the target of a token
redirect would answer were the redirect followed, and the user-info
endpoint's behaviour on an access token. -/
structure ProviderModel where
  scopes : List String
  authUrl : String
  tokenEndpoint : String → String → TokenEndpointResponse
  redirectTarget : String → TokenEndpointResponse
  userInfo : String → Except UpstreamError UserInfo

/-- Modelled from the spec: the `oauth2` crate's
`exchange_code(..).set_pkce_verifier(..).request_async(&http_client)`
together with `reqwest`'s redirect handling — a direct success yields the
token, a direct failure fails, and a redirect is followed (one hop) only
when the client's policy allows it; under `Policy::none` the redirect is
a failure of the exchange.  Returns the token and the number of outbound
token requests made. -/
def performExchange (client : HttpClient) (p : ProviderModel)
    (code verifier : String) : Except Unit String × Nat :=
  match p.tokenEndpoint code verifier with
  | .success t => (.ok t, 1)
  | .failure => (.error (), 1)
  | .redirect loc =>
      match client.redirectPolicy with
      | .none => (.error (), 1)
      | .follow =>
          match p.redirectTarget loc with
          | .success t => (.ok t, 2)
          | _ => (.error (), 2)

/-! ### Handler responses (`src/server/errors.rs`, `CallbackResponse`) -/

/-- The response of `oauth_callback`: the JSON success body (a
`CallbackResponse`, whose only field is `user_id` — see
`src/server/handlers.rs` lines 136-151), or one of the two error
constructors of `src/server/errors.rs`. -/
inductive HandlerResponse where
  | okJson (user_id : String)
  | badRequest (msg : String)
  | internalError (msg : String)
deriving DecidableEq, Repr

/-- The HTTP status of a callback response: `axum::Json` responds 200,
`bad_request` 400, `internal_error` 500. -/
def HandlerResponse.status : HandlerResponse → Nat
  | .okJson _ => 200
  | .badRequest _ => 400
  | .internalError _ => 500

/-- The JSON body serialized for a `CallbackResponse` success: the struct
has the single field `user_id`, so the body is `{"user_id": "<id>"}`. -/
def callbackBody : HandlerResponse → Option Json
  | .okJson user_id => some (.obj [("user_id", .str user_id)])
  | _ => none

/-- Modelled from the spec: the authorize URL the `oauth2` crate's
`authorize_url(CsrfToken::new_random).add_scopes(..).set_pkce_challenge(..)`
builds — the provider's authorization endpoint plus query parameters
`state` (the freshly minted CSRF token), `code_challenge` (the S256
transform of the PKCE verifier), `code_challenge_method=S256`, and the
scope list. -/
structure AuthorizeUrl where
  base : String
  state : String
  code_challenge : String
  code_challenge_method : String
  scopes : List String
deriving DecidableEq, Repr

/-- The response of `oauth_authorize`: the redirect to the provider's
authorize URL, or one of the two error constructors. -/
inductive InitiateResponse where
  | redirect (url : AuthorizeUrl)
  | badRequest (msg : String)
  | internalError (msg : String)
deriving DecidableEq, Repr

/-- The HTTP status of an initiation response: `axum`'s `Redirect::to`
responds 303 See Other, `bad_request` 400, `internal_error` 500. -/
def InitiateResponse.status : InitiateResponse → Nat
  | .redirect _ => 303
  | .badRequest _ => 400
  | .internalError _ => 500

/-! ### The two request handlers (`src/server/handlers.rs`) -/

/-- `oauth_authorize` (`src/server/handlers.rs` lines 67-109).

Inputs beyond the request: `providers` is `AppState.oauth_providers`;
`s256` models the fixed S256 transform bundled inside
`PkceCodeChallenge::new_random_sha256()`; `pkceVerifier` and `csrf` are
the random draws of that call and of `CsrfToken::new_random`;
`sess` is the session's current `oauth_session_state` entry and
`insertFails` whether `session.insert` errors.

Returns the response together with the session entry after the call.
The handler, in source order: resolve the provider (else 400
"Invalid provider"), generate the PKCE pair, build the authorize URL
(state := csrf token, challenge := S256(verifier), plus the adapter's
scopes), persist `OAuthSessionState` (on failure 500, session
unchanged), and redirect. -/
def oauth_authorize (providers : String → Option ProviderModel)
    (s256 : String → String) (providerName : String)
    (pkceVerifier csrf : String)
    (sess : Option OAuthSessionState) (insertFails : Bool) :
    InitiateResponse × Option OAuthSessionState :=
  match providers providerName with
  | none => (.badRequest "Invalid provider", sess)
  | some p =>
      let oauth_session_state : OAuthSessionState :=
        { provider := providerName
          pkce_verifier := pkceVerifier
          csrf_token := csrf }
      if insertFails then
        (.internalError "Failed to insert OAuth state into session", sess)
      else
        (.redirect
          { base := p.authUrl
            state := csrf
            code_challenge := s256 pkceVerifier
            code_challenge_method := "S256"
            scopes := p.scopes },
         some oauth_session_state)

/-- `oauth_callback` (`src/server/handlers.rs` lines 172-265).

Inputs beyond the request: `providers` is `AppState.oauth_providers`;
`code` and `stateParam` are the query parameters; `getFails` whether
`session.get` errors; `sess` the session's `oauth_session_state` entry;
`clientBuildFails` whether `reqwest::ClientBuilder::build` errors.

Returns `(response, number of outbound token requests, session entry
after the call)`.  The handler, in source order: read the session state
(error → 500, absent → 400), compare the CSRF token against the `state`
parameter (mismatch → 400, before any outbound request), resolve the
provider (absent → 400), build the no-redirect HTTP client, exchange the
code with the stored PKCE verifier (failure → 400), fetch user info
(failure → 500), and answer with `CallbackResponse { user_id }`.  The
handler never writes or removes the session entry. -/
def oauth_callback (providers : String → Option ProviderModel)
    (code stateParam : String) (getFails : Bool)
    (sess : Option OAuthSessionState) (clientBuildFails : Bool) :
    HandlerResponse × Nat × Option OAuthSessionState :=
  if getFails then
    (.internalError "Failed to retrieve OAuth session state from session", 0, sess)
  else
    match sess with
    | none => (.badRequest "OAuth session state not found in session", 0, sess)
    | some oauth_session_state =>
        if oauth_session_state.csrf_token = stateParam then
          match providers oauth_session_state.provider with
          | none => (.badRequest "Invalid provider", 0, sess)
          | some oauth_provider =>
              if clientBuildFails then
                (.internalError "Failed to build HTTP client", 0, sess)
              else
                match performExchange callbackHttpClient oauth_provider code
                    oauth_session_state.pkce_verifier with
                | (.error _, n) => (.badRequest "OAuth token exchange failed", n, sess)
                | (.ok access_token, n) =>
                    match oauth_provider.userInfo access_token with
                    | .error _ => (.internalError "Failed to get user info", n, sess)
                    | .ok user_info => (.okJson user_info.id, n, sess)
        else (.badRequest "CSRF token mismatch", 0, sess)

/-! ### Startup provider construction (`src/main.rs`, `src/settings.rs`,
`src/providers/mod.rs`) -/

/-- `OAuthSettings` from `src/settings.rs`: one provider's static
configuration. -/
structure OAuthSettings where
  client_id : String
  client_secret : String
  auth_url : String
  token_url : String
  redirect_uri : String
  user_info_url : String
deriving DecidableEq, Repr

/-- `OAUTH_PROVIDER_REGISTRY` from `src/providers/mod.rs`: whether a
factory is registered under the name — exactly google, github, twitter,
discord and spotify are. -/
def oauthProviderRegistry (name : String) : Bool :=
  name = "google" || name = "github" || name = "twitter" ||
    name = "discord" || name = "spotify"

/-- One iteration of the loop in `build_oauth_providers` (`src/main.rs`
lines 82-117) on the entry `(provider_name, cfg)`.

`parseOk` models URL validation by the `oauth2`/`url` crates
(`AuthUrl::new`, `TokenUrl::new`, `RedirectUrl::new`, `Url::parse`); the
four `.expect(..)` calls panic — modelled as `Except.error` carrying the
panic message — in source order: `auth_url`, `token_url`,
`redirect_uri`, `user_info_url`.  Only after all four parse is the
registry consulted: a registered factory yields the adapter (recorded as
the `(name, cfg)` it was built from), an unregistered name is skipped
with a warning. -/
def build_oauth_provider_step (parseOk : String → Bool)
    (registry : String → Bool) (acc : List (String × OAuthSettings))
    (entry : String × OAuthSettings) :
    Except String (List (String × OAuthSettings)) :=
  let provider_name := entry.1
  let cfg := entry.2
  if parseOk cfg.auth_url then
    if parseOk cfg.token_url then
      if parseOk cfg.redirect_uri then
        if parseOk cfg.user_info_url then
          if registry provider_name then
            .ok (acc ++ [(provider_name, cfg)])
          else
            .ok acc
        else .error ("Invalid user_info_url for provider " ++ provider_name)
      else .error ("Invalid redirect_uri for provider " ++ provider_name)
    else .error ("Invalid token_url for provider " ++ provider_name)
  else .error ("Invalid auth_url for provider " ++ provider_name)

/-- The `for` loop of `build_oauth_providers`: runs the step over the
remaining entries, threading the providers accumulated so far; a panic
aborts the whole construction. -/
def build_oauth_providers_loop (parseOk : String → Bool)
    (registry : String → Bool) :
    List (String × OAuthSettings) → List (String × OAuthSettings) →
    Except String (List (String × OAuthSettings))
  | [], acc => .ok acc
  | entry :: rest, acc =>
      match build_oauth_provider_step parseOk registry acc entry with
      | .error msg => .error msg
      | .ok acc' => build_oauth_providers_loop parseOk registry rest acc'

/-- `build_oauth_providers` (`src/main.rs` lines 77-120): the loop run
on the configured entries, starting from the empty provider map. -/
def build_oauth_providers (parseOk : String → Bool)
    (registry : String → Bool) (oauth : List (String × OAuthSettings)) :
    Except String (List (String × OAuthSettings)) :=
  build_oauth_providers_loop parseOk registry oauth []

/-- All four configured URLs parse. -/
def urlsValid (parseOk : String → Bool) (cfg : OAuthSettings) : Bool :=
  parseOk cfg.auth_url && parseOk cfg.token_url &&
    parseOk cfg.redirect_uri && parseOk cfg.user_info_url

/-! ### Session store configuration (`src/server/server.rs`) -/

/-- `CACHE_TTL` (`src/server/server.rs` line 21): one hour, in seconds. -/
def cacheTtlSeconds : Nat := 3600

/-- The capacity argument of `MokaStore::new(Some(20))`
(`src/server/server.rs` line 88). -/
def mokaStoreCapacity : Option Nat := some 20

/-- The session store contents: session key → persisted flow state. -/
abbrev SessionStore := List (String × OAuthSessionState)

/-- Modelled from the spec: a put into the Moka-backed session store
(`MokaStore`), which is a bounded cache — the entry for the key is
written (overwriting any previous entry for it) and the store never
holds more than `cap` entries, evicting an existing entry when full. -/
def storePut (cap : Nat) (store : SessionStore) (key : String)
    (v : OAuthSessionState) : SessionStore :=
  ((key, v) :: store.filter (fun e => e.1 ≠ key)).take cap

/-- A read from the session store. -/
def storeGet (store : SessionStore) (key : String) : Option OAuthSessionState :=
  (store.find? (fun e => e.1 = key)).map (·.2)

/-- A sequence of puts (one per session initiating a flow). -/
def storePutAll (cap : Nat) : SessionStore →
    List (String × OAuthSessionState) → SessionStore
  | store, [] => store
  | store, e :: rest => storePutAll cap (storePut cap store e.1 e.2) rest

/-! ### Concrete fixtures for scenario theorems -/

/-- A provider named "fake" for the end-to-end scenario of the spec: its
token endpoint answers code "C" with PKCE verifier "V" by the access
token "tok", and its user-info endpoint answers "tok" with user "u1". -/
def fakeProvider : ProviderModel :=
  { scopes := ["email"]
    authUrl := "https://accounts.fake/authorize"
    tokenEndpoint := fun code verifier =>
      if code = "C" ∧ verifier = "V" then .success "tok" else .failure
    redirectTarget := fun _ => .failure
    userInfo := fun tok =>
      if tok = "tok" then .ok { id := "u1", provider := "fake" }
      else .error .requestError }

/-- An adapter map holding only the fake provider. -/
def fakeProviders : String → Option ProviderModel :=
  fun name => if name = "fake" then some fakeProvider else none

/-- A provider whose token endpoint answers every exchange with an HTTP
redirect to "https://evil.example/token", whose target would answer with
the token "tok2" were the redirect followed. -/
def redirectingProvider : ProviderModel :=
  { scopes := ["email"]
    authUrl := "https://accounts.fake/authorize"
    tokenEndpoint := fun _ _ => .redirect "https://evil.example/token"
    redirectTarget := fun loc =>
      if loc = "https://evil.example/token" then .success "tok2" else .failure
    userInfo := fun _ => .error .requestError }

/-- An adapter map holding only the redirecting provider, under the name
"fake". -/
def redirectingProviders : String → Option ProviderModel :=
  fun name => if name = "fake" then some redirectingProvider else none

/-- A provider whose token exchange succeeds but whose user-info fetch
fails with a non-2xx upstream status. -/
def userInfoFailingProvider : ProviderModel :=
  { scopes := ["email"]
    authUrl := "https://accounts.fake/authorize"
    tokenEndpoint := fun _ _ => .success "tok"
    redirectTarget := fun _ => .failure
    userInfo := fun _ => .error (.statusError 503) }

/-- An adapter map holding only the user-info-failing provider, under
the name "fake". -/
def userInfoFailingProviders : String → Option ProviderModel :=
  fun name => if name = "fake" then some userInfoFailingProvider else none

/-- A URL validator for the construction scenarios: every string parses
except the literal "bad". -/
def sampleParseOk : String → Bool := fun s => !(s == "bad")

/-- A well-formed provider configuration. -/
def sampleGoodSettings : OAuthSettings :=
  { client_id := "id"
    client_secret := "secret"
    auth_url := "https://provider.example/auth"
    token_url := "https://provider.example/token"
    redirect_uri := "https://me.example/callback"
    user_info_url := "https://provider.example/user" }

/-- A provider configuration whose token URL does not parse. -/
def sampleBadSettings : OAuthSettings :=
  { client_id := "id"
    client_secret := "secret"
    auth_url := "https://provider.example/auth"
    token_url := "bad"
    redirect_uri := "https://me.example/callback"
    user_info_url := "https://provider.example/user" }

end OAuthGateway

namespace OAuthGateway

/-! ## Claims -/

/-- C1: the claim says a second `complete` with the same session key
after one successful completion yields `NoActiveFlow`, the flow state
being single-use.  The code violates this: `oauth_callback` reads the
session entry with `session.get` and never removes or overwrites it
(`src/server/handlers.rs` lines 177-194 and 249-265 contain no session
write), so after a successful completion for session state
`{provider := "fake", pkce_verifier := "V", csrf_token := "S"}` and
callback parameters `code=C`, `state=S`, the state is still present and
a second identical `complete` succeeds again (HTTP 200 with the same
identity) instead of failing with the missing-flow client error. -/
theorem c1_second_complete_replays_instead_of_no_active_flow :
    oauth_callback fakeProviders "C" "S" false
        (some { provider := "fake", pkce_verifier := "V", csrf_token := "S" }) false =
      (.okJson "u1", 1,
        some { provider := "fake", pkce_verifier := "V", csrf_token := "S" }) ∧
    (oauth_callback fakeProviders "C" "S" false
        ((oauth_callback fakeProviders "C" "S" false
          (some { provider := "fake", pkce_verifier := "V", csrf_token := "S" })
          false).2.2) false).1 = .okJson "u1" ∧
    (oauth_callback fakeProviders "C" "S" false
        ((oauth_callback fakeProviders "C" "S" false
          (some { provider := "fake", pkce_verifier := "V", csrf_token := "S" })
          false).2.2) false).1 ≠
      .badRequest "OAuth session state not found in session" := by
  refine ⟨rfl, rfl, ?_⟩
  decide

/-- C2: for every stored flow state and every `state` query parameter
that differs from the stored `csrf_token`, `oauth_callback` fails with
the CSRF-mismatch client error, makes zero outbound token requests, and
leaves the session entry unchanged (`src/server/handlers.rs` lines
196-200: the comparison happens before the HTTP client is even built). -/
theorem c2_csrf_mismatch_rejected_before_token_exchange
    (providers : String → Option ProviderModel) (code stateParam : String)
    (st : OAuthSessionState) (clientBuildFails : Bool)
    (h : st.csrf_token ≠ stateParam) :
    oauth_callback providers code stateParam false (some st) clientBuildFails =
      (.badRequest "CSRF token mismatch", 0, some st) := by
  simp [oauth_callback, h]

/-- Witness for C2 at a concrete mismatching state parameter. -/
theorem c2_csrf_mismatch_rejected_before_token_exchange_witness :
    oauth_callback fakeProviders "C" "WRONG" false
        (some { provider := "fake", pkce_verifier := "V", csrf_token := "S" }) false =
      (.badRequest "CSRF token mismatch", 0,
        some { provider := "fake", pkce_verifier := "V", csrf_token := "S" }) :=
  c2_csrf_mismatch_rejected_before_token_exchange fakeProviders "C" "WRONG"
    { provider := "fake", pkce_verifier := "V", csrf_token := "S" } false
    (by decide)

/-- C3: the claim says each adapter extracts and stringifies the identity
field with 100% fidelity.  GitHub (numeric `id`, stringified decimal) and
Twitter (nested `data.username` string) do, and all three adapters fail
with the schema error when the field is absent — but Spotify violates
fidelity: `src/providers/spotify.rs` line 113 calls
`serde_json::Value::to_string()` on the `id` field instead of `as_str()`,
so for the provider body `{"id": "wizzler"}` the returned id is the JSON
rendering `"wizzler"` WITH its quotation marks (a 9-character string),
not the field's 7-character value. -/
theorem c3_spotify_breaks_id_fidelity_github_twitter_keep_it :
    spotify_get_user_info
        (some { status := 200, body := some (.obj [("id", .str "wizzler")]) }) =
      .ok { id := "\"wizzler\"", provider := "spotify" } ∧
    "\"wizzler\"" ≠ "wizzler" ∧
    github_get_user_info
        (some { status := 200, body := some (.obj [("id", .num 583231)]) }) =
      .ok { id := "583231", provider := "github" } ∧
    twitter_get_user_info
        (some { status := 200,
                body := some (.obj [("data", .obj [("username", .str "jack")])]) }) =
      .ok { id := "jack", provider := "twitter" } ∧
    spotify_get_user_info
        (some { status := 200, body := some (.obj [("display_name", .str "w")]) }) =
      .error (.schemaError "No id field in Spotify user info response") ∧
    github_get_user_info
        (some { status := 200, body := some (.obj [("login", .str "octocat")]) }) =
      .error (.schemaError "No valid user ID in GitHub response") ∧
    twitter_get_user_info
        (some { status := 200, body := some (.obj [("data", .obj [])]) }) =
      .error (.schemaError "No username field in Twitter user info response") := by
  refine ⟨?_, by decide, rfl, rfl, rfl, rfl, rfl⟩
  have hrender : Json.render (Json.str "wizzler") = "\"wizzler\"" := by
    unfold Json.render
    rfl
  have h1 : spotify_get_user_info
      (some { status := 200, body := some (.obj [("id", .str "wizzler")]) }) =
      Except.ok { id := Json.render (Json.str "wizzler"), provider := "spotify" } := rfl
  rw [h1, hrender]

/-- C4 counterexample: the claim says a completed flow yields a JSON
identity containing BOTH the user id and the provider name.  On the code
it does not: `CallbackResponse` (`src/server/handlers.rs` lines 136-151)
has the single field `user_id`, and `oauth_callback` (lines 261-264)
drops `user_info.provider`.  Concretely: initiating for the provider
"fake" and completing with the matching `code=C`, `state=S` produces the
body `\x7b"user_id": "u1"\x7d`, which has no "provider" field at all. -/
theorem c4_success_response_has_no_provider_field :
    (oauth_authorize fakeProviders (fun v => "H" ++ v) "fake" "V" "S" none false).2 =
      some { provider := "fake", pkce_verifier := "V", csrf_token := "S" } ∧
    (oauth_callback fakeProviders "C" "S" false
        (oauth_authorize fakeProviders (fun v => "H" ++ v) "fake" "V" "S" none false).2
        false).1 = .okJson "u1" ∧
    callbackBody (.okJson "u1") = some (.obj [("user_id", .str "u1")]) ∧
    ((callbackBody (.okJson "u1")).getD .null).get "provider" = none :=
  ⟨rfl, rfl, rfl, rfl⟩

/-- C4 amended: when a flow is initiated for a configured provider and
the callback arrives with the matching code and state, `complete` yields
the JSON identity `\x7b"user_id": "<expected-id>"\x7d`; the provider name
is NOT part of the response body. -/
theorem c4_amended_success_response_is_user_id_only
    (providers : String → Option ProviderModel) (p : ProviderModel)
    (st : OAuthSessionState) (code stateParam tok : String) (ui : UserInfo)
    (hp : providers st.provider = some p)
    (hcsrf : st.csrf_token = stateParam)
    (hex : p.tokenEndpoint code st.pkce_verifier = .success tok)
    (hui : p.userInfo tok = .ok ui) :
    oauth_callback providers code stateParam false (some st) false =
      (.okJson ui.id, 1, some st) ∧
    callbackBody (.okJson ui.id) = some (.obj [("user_id", .str ui.id)]) ∧
    (Json.obj [("user_id", .str ui.id)]).get "provider" = none := by
  subst hcsrf
  refine ⟨?_, rfl, rfl⟩
  simp [oauth_callback, hp, performExchange, hex, hui]

/-- Witness for C4's amended theorem at the concrete fake-provider
scenario. -/
theorem c4_amended_success_response_is_user_id_only_witness :
    oauth_callback fakeProviders "C" "S" false
        (some { provider := "fake", pkce_verifier := "V", csrf_token := "S" }) false =
      (.okJson "u1", 1,
        some { provider := "fake", pkce_verifier := "V", csrf_token := "S" }) ∧
    callbackBody (.okJson "u1") = some (.obj [("user_id", .str "u1")]) ∧
    (Json.obj [("user_id", .str "u1")]).get "provider" = none :=
  c4_amended_success_response_is_user_id_only fakeProviders fakeProvider
    { provider := "fake", pkce_verifier := "V", csrf_token := "S" }
    "C" "S" "tok" { id := "u1", provider := "fake" } rfl rfl rfl rfl

/-- C5: for every configured provider, `oauth_authorize` redirects to an
authorize URL whose `state` parameter equals the `csrf_token` persisted
in the flow state, whose PKCE challenge parameter is the S256 transform
of the persisted `pkce_verifier`, and whose challenge method is S256;
and two initiations drawing distinct CSRF tokens produce distinct
`state` parameters (`src/server/handlers.rs` lines 80-108: the verifier
of the generated PKCE pair and the CSRF token returned by
`authorize_url` are the values stored in `OAuthSessionState`). -/
theorem c5_initiate_binds_state_and_pkce_challenge
    (providers : String → Option ProviderModel) (s256 : String → String)
    (name : String) (p : ProviderModel) (hp : providers name = some p) :
    (∀ v c sess, ∃ url st,
      oauth_authorize providers s256 name v c sess false =
        (.redirect url, some st) ∧
      url.state = st.csrf_token ∧
      url.code_challenge = s256 st.pkce_verifier ∧
      url.code_challenge_method = "S256" ∧
      st = { provider := name, pkce_verifier := v, csrf_token := c }) ∧
    (∀ v₁ c₁ s₁ v₂ c₂ s₂ u₁ t₁ u₂ t₂,
      oauth_authorize providers s256 name v₁ c₁ s₁ false = (.redirect u₁, t₁) →
      oauth_authorize providers s256 name v₂ c₂ s₂ false = (.redirect u₂, t₂) →
      c₁ ≠ c₂ → u₁.state ≠ u₂.state) := by
  constructor
  · intro v c sess
    refine ⟨{ base := p.authUrl, state := c, code_challenge := s256 v,
              code_challenge_method := "S256", scopes := p.scopes },
            { provider := name, pkce_verifier := v, csrf_token := c },
            ?_, rfl, rfl, rfl, rfl⟩
    simp [oauth_authorize, hp]
  · intro v₁ c₁ s₁ v₂ c₂ s₂ u₁ t₁ u₂ t₂ h₁ h₂ hne
    simp [oauth_authorize, hp] at h₁ h₂
    rw [← h₁.1, ← h₂.1]
    simpa using hne

/-- Witness for C5: two concrete initiations for the fake provider. -/
theorem c5_initiate_binds_state_and_pkce_challenge_witness :
    (∃ url₁ st₁,
      oauth_authorize fakeProviders (fun v => "H" ++ v) "fake" "V" "S" none false =
        (.redirect url₁, some st₁) ∧
      url₁.state = st₁.csrf_token ∧
      url₁.code_challenge = "H" ++ st₁.pkce_verifier ∧
      url₁.code_challenge_method = "S256") ∧
    (∀ u₁ t₁ u₂ t₂,
      oauth_authorize fakeProviders (fun v => "H" ++ v) "fake" "V" "S" none false =
        (.redirect u₁, t₁) →
      oauth_authorize fakeProviders (fun v => "H" ++ v) "fake" "V2" "S2" none false =
        (.redirect u₂, t₂) →
      u₁.state ≠ u₂.state) := by
  have h := c5_initiate_binds_state_and_pkce_challenge fakeProviders
    (fun v => "H" ++ v) "fake" fakeProvider rfl
  constructor
  · obtain ⟨url, st, heq, hs, hc, hm, _⟩ := h.1 "V" "S" none
    exact ⟨url, st, heq, hs, hc, hm⟩
  · intro u₁ t₁ u₂ t₂ h₁ h₂
    exact h.2 "V" "S" none "V2" "S2" none u₁ t₁ u₂ t₂ h₁ h₂ (by decide)

/-- C6: for every provider name absent from the adapter map,
`oauth_authorize` answers with the 400 client error "Invalid provider"
and performs no flow-state write — the session entry is returned
unchanged (`src/server/handlers.rs` lines 72-78: the handler returns
before any session operation). -/
theorem c6_unknown_provider_rejected_without_session_write
    (providers : String → Option ProviderModel) (s256 : String → String)
    (name v c : String) (sess : Option OAuthSessionState) (insertFails : Bool)
    (h : providers name = none) :
    oauth_authorize providers s256 name v c sess insertFails =
      (.badRequest "Invalid provider", sess) ∧
    (InitiateResponse.badRequest "Invalid provider").status = 400 := by
  simp [oauth_authorize, h, InitiateResponse.status]

/-- Witness for C6 at the name "not-a-real-provider". -/
theorem c6_unknown_provider_rejected_without_session_write_witness :
    oauth_authorize fakeProviders (fun v => "H" ++ v) "not-a-real-provider"
        "V" "S" (some { provider := "fake", pkce_verifier := "V", csrf_token := "S" })
        false =
      (.badRequest "Invalid provider",
        some { provider := "fake", pkce_verifier := "V", csrf_token := "S" }) ∧
    (InitiateResponse.badRequest "Invalid provider").status = 400 :=
  c6_unknown_provider_rejected_without_session_write fakeProviders
    (fun v => "H" ++ v) "not-a-real-provider" "V" "S"
    (some { provider := "fake", pkce_verifier := "V", csrf_token := "S" })
    false rfl

/-- C7: the error-to-status mapping of the two handlers.  Unknown
provider at initiation, unknown provider at callback, CSRF mismatch,
missing flow state and token-exchange failure each answer 400; user-info
fetch failure, session-write failure at initiation and session-read
failure at callback each answer 500 (`src/server/handlers.rs` lines
72-108 and 172-259, `src/server/errors.rs` lines 16-35). -/
theorem c7_error_to_status_mapping :
    (∀ (providers : String → Option ProviderModel) s256 name v c sess ins,
      providers name = none →
      (oauth_authorize providers s256 name v c sess ins).1.status = 400) ∧
    (∀ (providers : String → Option ProviderModel) s256 name p v c sess,
      providers name = some p →
      (oauth_authorize providers s256 name v c sess true).1.status = 500) ∧
    (∀ (providers : String → Option ProviderModel) code stp sess cb,
      (oauth_callback providers code stp true sess cb).1.status = 500) ∧
    (∀ (providers : String → Option ProviderModel) code stp cb,
      (oauth_callback providers code stp false none cb).1.status = 400) ∧
    (∀ (providers : String → Option ProviderModel) code stp st cb,
      st.csrf_token ≠ stp →
      (oauth_callback providers code stp false (some st) cb).1.status = 400) ∧
    (∀ (providers : String → Option ProviderModel) code stp st cb,
      st.csrf_token = stp → providers st.provider = none →
      (oauth_callback providers code stp false (some st) cb).1.status = 400) ∧
    (∀ (providers : String → Option ProviderModel) code stp st p,
      st.csrf_token = stp → providers st.provider = some p →
      p.tokenEndpoint code st.pkce_verifier = .failure →
      (oauth_callback providers code stp false (some st) false).1.status = 400) ∧
    (∀ (providers : String → Option ProviderModel) code stp st p tok e,
      st.csrf_token = stp → providers st.provider = some p →
      p.tokenEndpoint code st.pkce_verifier = .success tok →
      p.userInfo tok = .error e →
      (oauth_callback providers code stp false (some st) false).1.status = 500) := by
  refine ⟨?_, ?_, ?_, ?_, ?_, ?_, ?_, ?_⟩
  · intro providers s256 name v c sess ins h
    simp [oauth_authorize, h, InitiateResponse.status]
  · intro providers s256 name p v c sess h
    simp [oauth_authorize, h, InitiateResponse.status]
  · intro providers code stp sess cb
    simp [oauth_callback, HandlerResponse.status]
  · intro providers code stp cb
    simp [oauth_callback, HandlerResponse.status]
  · intro providers code stp st cb h
    simp [oauth_callback, h, HandlerResponse.status]
  · intro providers code stp st cb hcsrf hp
    simp [oauth_callback, hcsrf, hp, HandlerResponse.status]
  · intro providers code stp st p hcsrf hp hex
    simp [oauth_callback, hcsrf, hp, performExchange, hex, HandlerResponse.status]
  · intro providers code stp st p tok e hcsrf hp hex hui
    simp [oauth_callback, hcsrf, hp, performExchange, hex, hui,
      HandlerResponse.status]

/-- Witness for C7: each failure stage hit at a concrete input. -/
theorem c7_error_to_status_mapping_witness :
    (oauth_authorize fakeProviders (fun v => "H" ++ v) "nope" "V" "S" none
        false).1.status = 400 ∧
    (oauth_authorize fakeProviders (fun v => "H" ++ v) "fake" "V" "S" none
        true).1.status = 500 ∧
    (oauth_callback fakeProviders "C" "S" true none false).1.status = 500 ∧
    (oauth_callback fakeProviders "C" "S" false none false).1.status = 400 ∧
    (oauth_callback fakeProviders "C" "WRONG" false
        (some { provider := "fake", pkce_verifier := "V", csrf_token := "S" })
        false).1.status = 400 ∧
    (oauth_callback fakeProviders "C" "S" false
        (some { provider := "ghost", pkce_verifier := "V", csrf_token := "S" })
        false).1.status = 400 ∧
    (oauth_callback fakeProviders "BAD" "S" false
        (some { provider := "fake", pkce_verifier := "V", csrf_token := "S" })
        false).1.status = 400 ∧
    (oauth_callback userInfoFailingProviders "C" "S" false
        (some { provider := "fake", pkce_verifier := "V", csrf_token := "S" })
        false).1.status = 500 := by
  have h := c7_error_to_status_mapping
  refine ⟨h.1 fakeProviders (fun v => "H" ++ v) "nope" "V" "S" none false rfl,
    h.2.1 fakeProviders (fun v => "H" ++ v) "fake" fakeProvider "V" "S" none rfl,
    h.2.2.1 fakeProviders "C" "S" none false,
    h.2.2.2.1 fakeProviders "C" "S" false,
    h.2.2.2.2.1 fakeProviders "C" "WRONG"
      { provider := "fake", pkce_verifier := "V", csrf_token := "S" } false
      (by decide),
    h.2.2.2.2.2.1 fakeProviders "C" "S"
      { provider := "ghost", pkce_verifier := "V", csrf_token := "S" } false
      rfl rfl,
    h.2.2.2.2.2.2.1 fakeProviders "BAD" "S"
      { provider := "fake", pkce_verifier := "V", csrf_token := "S" }
      fakeProvider rfl rfl (by decide),
    h.2.2.2.2.2.2.2 userInfoFailingProviders "C" "S"
      { provider := "fake", pkce_verifier := "V", csrf_token := "S" }
      userInfoFailingProvider "tok" (.statusError 503) rfl rfl rfl rfl⟩

/-- C8: the HTTP client used for the code-for-token exchange is built
with `reqwest::redirect::Policy::none()` (`src/server/handlers.rs` lines
214-217), so when the token endpoint answers with a redirect the
exchange fails (400 "OAuth token exchange failed" after exactly one
outbound request) instead of the redirect being followed — even when
following it would have produced a token, as a redirect-following client
would have. -/
theorem c8_token_redirect_treated_as_exchange_failure
    (providers : String → Option ProviderModel) (code stp loc : String)
    (st : OAuthSessionState) (p : ProviderModel)
    (hp : providers st.provider = some p)
    (hcsrf : st.csrf_token = stp)
    (hred : p.tokenEndpoint code st.pkce_verifier = .redirect loc) :
    callbackHttpClient.redirectPolicy = .none ∧
    oauth_callback providers code stp false (some st) false =
      (.badRequest "OAuth token exchange failed", 1, some st) ∧
    (∀ t, p.redirectTarget loc = .success t →
      (performExchange { redirectPolicy := .follow } p code
          st.pkce_verifier).1 = .ok t) := by
  refine ⟨rfl, ?_, ?_⟩
  · simp [oauth_callback, hcsrf, hp, performExchange, hred, callbackHttpClient]
  · intro t ht
    simp [performExchange, hred, ht]

/-- Witness for C8 at the concrete redirecting provider. -/
theorem c8_token_redirect_treated_as_exchange_failure_witness :
    callbackHttpClient.redirectPolicy = .none ∧
    oauth_callback redirectingProviders "C" "S" false
        (some { provider := "fake", pkce_verifier := "V", csrf_token := "S" })
        false =
      (.badRequest "OAuth token exchange failed", 1,
        some { provider := "fake", pkce_verifier := "V", csrf_token := "S" }) ∧
    (∀ t, redirectingProvider.redirectTarget "https://evil.example/token" =
        .success t →
      (performExchange { redirectPolicy := .follow } redirectingProvider "C"
          "V").1 = .ok t) :=
  c8_token_redirect_treated_as_exchange_failure redirectingProviders "C" "S"
    "https://evil.example/token"
    { provider := "fake", pkce_verifier := "V", csrf_token := "S" }
    redirectingProvider rfl rfl rfl

/-- When all four URLs of the entry parse, the construction step does
not panic: it yields the extended map when the name is registered and
the unchanged map otherwise. -/
theorem build_step_of_valid (parseOk registry : String → Bool)
    (acc : List (String × OAuthSettings)) (entry : String × OAuthSettings)
    (h : urlsValid parseOk entry.2 = true) :
    build_oauth_provider_step parseOk registry acc entry =
      if registry entry.1 then .ok (acc ++ [entry]) else .ok acc := by
  simp only [urlsValid, Bool.and_eq_true] at h
  obtain ⟨⟨⟨h1, h2⟩, h3⟩, h4⟩ := h
  simp [build_oauth_provider_step, h1, h2, h3, h4]

/-- When one of the four URLs of the entry does not parse, the
construction step panics. -/
theorem build_step_of_invalid (parseOk registry : String → Bool)
    (acc : List (String × OAuthSettings)) (entry : String × OAuthSettings)
    (h : urlsValid parseOk entry.2 = false) :
    ∃ msg, build_oauth_provider_step parseOk registry acc entry = .error msg := by
  by_cases h1 : parseOk entry.2.auth_url = true
  · by_cases h2 : parseOk entry.2.token_url = true
    · by_cases h3 : parseOk entry.2.redirect_uri = true
      · by_cases h4 : parseOk entry.2.user_info_url = true
        · exfalso
          simp [urlsValid, h1, h2, h3, h4] at h
        · exact ⟨"Invalid user_info_url for provider " ++ entry.1,
            by simp [build_oauth_provider_step, h1, h2, h3, h4]⟩
      · exact ⟨"Invalid redirect_uri for provider " ++ entry.1,
          by simp [build_oauth_provider_step, h1, h2, h3]⟩
    · exact ⟨"Invalid token_url for provider " ++ entry.1,
        by simp [build_oauth_provider_step, h1, h2]⟩
  · exact ⟨"Invalid auth_url for provider " ++ entry.1,
      by simp [build_oauth_provider_step, h1]⟩

/-- Every entry a successful construction step adds was either already
accumulated or is the current entry with all four URLs valid. -/
theorem build_step_ok_mem (parseOk registry : String → Bool)
    (acc acc' : List (String × OAuthSettings)) (entry : String × OAuthSettings)
    (h : build_oauth_provider_step parseOk registry acc entry = .ok acc') :
    ∀ e ∈ acc', e ∈ acc ∨ (e = entry ∧ urlsValid parseOk entry.2 = true) := by
  intro e he
  by_cases hv : urlsValid parseOk entry.2 = true
  · rw [build_step_of_valid parseOk registry acc entry hv] at h
    by_cases hr : registry entry.1 = true
    · rw [if_pos hr] at h
      injection h with h
      subst h
      rcases List.mem_append.mp he with h' | h'
      · exact Or.inl h'
      · exact Or.inr ⟨List.mem_singleton.mp h', hv⟩
    · rw [if_neg hr] at h
      injection h with h
      subst h
      exact Or.inl he
  · obtain ⟨msg, hm⟩ :=
      build_step_of_invalid parseOk registry acc entry (by simpa using hv)
    rw [hm] at h
    cases h

/-- Every entry in the map a successful loop run returns was either
already accumulated or has all four URLs valid. -/
theorem build_loop_ok_mem (parseOk registry : String → Bool) :
    ∀ (l acc m : List (String × OAuthSettings)),
      build_oauth_providers_loop parseOk registry l acc = .ok m →
      ∀ e ∈ m, e ∈ acc ∨ urlsValid parseOk e.2 = true := by
  intro l
  induction l with
  | nil =>
      intro acc m h e he
      injection h with h
      subst h
      exact Or.inl he
  | cons entry rest ih =>
      intro acc m h e he
      unfold build_oauth_providers_loop at h
      cases hstep : build_oauth_provider_step parseOk registry acc entry with
      | error msg => rw [hstep] at h; cases h
      | ok acc' =>
          rw [hstep] at h
          rcases ih acc' m h e he with h' | h'
          · rcases build_step_ok_mem parseOk registry acc acc' entry hstep e h'
              with h'' | ⟨he', hv⟩
            · exact Or.inl h''
            · subst he'
              exact Or.inr hv
          · exact Or.inr h'

/-- When some remaining entry has an invalid URL, the loop panics. -/
theorem build_loop_error_of_invalid (parseOk registry : String → Bool) :
    ∀ (l acc : List (String × OAuthSettings)),
      (∃ e ∈ l, urlsValid parseOk e.2 = false) →
      ∃ msg, build_oauth_providers_loop parseOk registry l acc = .error msg := by
  intro l
  induction l with
  | nil =>
      intro acc h
      obtain ⟨e, he, _⟩ := h
      cases he
  | cons entry rest ih =>
      intro acc h
      obtain ⟨e, he, hev⟩ := h
      by_cases hv : urlsValid parseOk entry.2 = true
      · have hne : e ∈ rest := by
          rcases List.mem_cons.mp he with h' | h'
          · subst h'
            rw [hv] at hev
            cases hev
          · exact h'
        unfold build_oauth_providers_loop
        rw [build_step_of_valid parseOk registry acc entry hv]
        by_cases hr : registry entry.1 = true
        · rw [if_pos hr]
          exact ih (acc ++ [entry]) ⟨e, hne, hev⟩
        · rw [if_neg hr]
          exact ih acc ⟨e, hne, hev⟩
      · obtain ⟨msg, hm⟩ :=
          build_step_of_invalid parseOk registry acc entry (by simpa using hv)
        refine ⟨msg, ?_⟩
        unfold build_oauth_providers_loop
        rw [hm]

/-- C9: an adapter is never built from a configuration with an invalid
URL.  Every provider in a successfully built map has all four URLs
(auth_url, token_url, redirect_uri, user_info_url) parsing, and a
configured provider with any invalid URL makes the whole construction
fail fast (the `.expect` panics of `src/main.rs` lines 84-97) instead of
producing an adapter. -/
theorem c9_adapter_construction_requires_valid_urls
    (parseOk registry : String → Bool)
    (oauth : List (String × OAuthSettings)) :
    (∀ m, build_oauth_providers parseOk registry oauth = .ok m →
      ∀ e ∈ m,
        parseOk e.2.auth_url = true ∧ parseOk e.2.token_url = true ∧
        parseOk e.2.redirect_uri = true ∧ parseOk e.2.user_info_url = true) ∧
    (∀ e ∈ oauth, urlsValid parseOk e.2 = false →
      ∃ msg, build_oauth_providers parseOk registry oauth = .error msg) := by
  constructor
  · intro m h e he
    rcases build_loop_ok_mem parseOk registry oauth [] m h e he with h' | h'
    · cases h'
    · simp only [urlsValid, Bool.and_eq_true] at h'
      obtain ⟨⟨⟨h1, h2⟩, h3⟩, h4⟩ := h'
      exact ⟨h1, h2, h3, h4⟩
  · intro e he hev
    exact build_loop_error_of_invalid parseOk registry oauth [] ⟨e, he, hev⟩

/-- Witness for C9: a configuration with a bad token URL aborts the
construction, and the providers built from a good configuration all
carry valid URLs. -/
theorem c9_adapter_construction_requires_valid_urls_witness :
    (∃ msg, build_oauth_providers sampleParseOk oauthProviderRegistry
        [("github", sampleBadSettings)] = .error msg) ∧
    (∀ e ∈ ([("github", sampleGoodSettings)] :
        List (String × OAuthSettings)),
      sampleParseOk e.2.auth_url = true ∧
      sampleParseOk e.2.token_url = true ∧
      sampleParseOk e.2.redirect_uri = true ∧
      sampleParseOk e.2.user_info_url = true) := by
  constructor
  · exact (c9_adapter_construction_requires_valid_urls sampleParseOk
      oauthProviderRegistry [("github", sampleBadSettings)]).2
      ("github", sampleBadSettings) (List.mem_singleton.mpr rfl) rfl
  · exact (c9_adapter_construction_requires_valid_urls sampleParseOk
      oauthProviderRegistry [("github", sampleGoodSettings)]).1
      [("github", sampleGoodSettings)] rfl

/-- A put never leaves more than `cap` entries in the store. -/
theorem storePut_length_le (cap : Nat) (store : SessionStore) (k : String)
    (v : OAuthSessionState) : (storePut cap store k v).length ≤ cap := by
  simp only [storePut, List.length_take]
  omega

/-- After at least one put, the store holds at most `cap` entries. -/
theorem storePutAll_length_le (cap : Nat) :
    ∀ (entries : List (String × OAuthSessionState)) (store : SessionStore),
      entries ≠ [] → (storePutAll cap store entries).length ≤ cap := by
  intro entries
  induction entries with
  | nil => intro store h; exact absurd rfl h
  | cons e rest ih =>
      intro store _
      cases rest with
      | nil => exact storePut_length_le cap store e.1 e.2
      | cons e2 r2 =>
          exact ih (storePut cap store e.1 e.2) (by simp)

/-- A key the store answers is among the store's keys. -/
theorem storeGet_some_mem (store : SessionStore) (k : String)
    (v : OAuthSessionState) (h : storeGet store k = some v) :
    k ∈ store.map Prod.fst := by
  simp only [storeGet, Option.map_eq_some'] at h
  obtain ⟨e, hfind, _⟩ := h
  have hmem := List.mem_of_find?_eq_some hfind
  have hp := List.find?_some hfind
  simp only [decide_eq_true_eq] at hp
  exact hp ▸ List.mem_map_of_mem Prod.fst hmem

/-- C10: the session store backing the flow state is created with
maximum capacity 20 (`MokaStore::new(Some(20))`, `src/server/server.rs`
line 88) and a 3600-second inactivity TTL (`CACHE_TTL`, line 21), so
when more than 20 distinct sessions put live flow state, some session's
entry is evicted — independently of the TTL, hence before the hour
elapses — and that session's callback then fails with the
missing-flow-state client error even though its flow was otherwise
valid. -/
theorem c10_store_capacity_twenty_evicts_live_flows :
    mokaStoreCapacity = some 20 ∧ cacheTtlSeconds = 3600 ∧
    ∀ (keys : List String) (flow : String → OAuthSessionState)
      (store : SessionStore),
      keys.Nodup → 20 < keys.length →
      ∃ k ∈ keys,
        storeGet (storePutAll 20 store (keys.map (fun k => (k, flow k)))) k =
          none ∧
        ∀ (providers : String → Option ProviderModel) (code stp : String)
          (cb : Bool),
          (oauth_callback providers code stp false
            (storeGet (storePutAll 20 store (keys.map (fun k => (k, flow k))))
              k) cb).1 =
            .badRequest "OAuth session state not found in session" := by
  refine ⟨rfl, rfl, ?_⟩
  intro keys flow store hnd hlen
  have hex : ∃ k ∈ keys,
      storeGet (storePutAll 20 store (keys.map (fun k => (k, flow k)))) k =
        none := by
    by_contra hcon
    push_neg at hcon
    have hsub : keys ⊆
        (storePutAll 20 store (keys.map (fun k => (k, flow k)))).map Prod.fst := by
      intro k hk
      cases hg : storeGet (storePutAll 20 store
          (keys.map (fun k => (k, flow k)))) k with
      | none => exact absurd hg (hcon k hk)
      | some v => exact storeGet_some_mem _ k v hg
    have h1 := (hnd.subperm hsub).length_le
    have h2 : (storePutAll 20 store
        (keys.map (fun k => (k, flow k)))).length ≤ 20 := by
      refine storePutAll_length_le 20 _ store ?_
      intro hmap
      rw [List.map_eq_nil_iff] at hmap
      subst hmap
      simp at hlen
    rw [List.length_map] at h1
    omega
  obtain ⟨k, hk, hnone⟩ := hex
  refine ⟨k, hk, hnone, ?_⟩
  intro providers code stp cb
  rw [hnone]
  simp [oauth_callback]

/-- Witness for C10: 21 distinct sessions, each with a live flow; after
all the puts, session "sess0" through "sess20" cannot all be present. -/
theorem c10_store_capacity_twenty_evicts_live_flows_witness :
    mokaStoreCapacity = some 20 ∧ cacheTtlSeconds = 3600 ∧
    ∃ k ∈ (List.range 21).map (fun i => "sess" ++ toString i),
      storeGet (storePutAll 20 []
        (((List.range 21).map (fun i => "sess" ++ toString i)).map
          (fun k => (k, OAuthSessionState.mk "google" "V" k)))) k = none ∧
      ∀ (providers : String → Option ProviderModel) (code stp : String)
        (cb : Bool),
        (oauth_callback providers code stp false
          (storeGet (storePutAll 20 []
            (((List.range 21).map (fun i => "sess" ++ toString i)).map
              (fun k => (k, OAuthSessionState.mk "google" "V" k)))) k)
          cb).1 =
          .badRequest "OAuth session state not found in session" :=
  ⟨rfl, rfl,
    c10_store_capacity_twenty_evicts_live_flows.2.2
      ((List.range 21).map (fun i => "sess" ++ toString i))
      (fun k => OAuthSessionState.mk "google" "V" k) []
      (by decide) (by decide)⟩

end OAuthGateway
